import Mathlib

/-!
Verification of the Kepler PRF model construction and evaluation code
(pyke/kepler_prf.py): a shallow embedding of the numeric pipeline over the
real numbers, with the possible NaN entries of the calibration grids
modelled as `Option ℝ` (`none` = NaN) and the external collaborators
(the scipy bivariate-spline fitting algorithm and the oktopus optimizer)
taken as oracle function parameters.  The filesystem seen by the loader is
an explicit association list of file names to FITS HDU lists.
-/

/-- A matrix of floats in which an entry may be NaN (`none`). -/
abbrev Mat : Type := List (List (Option ℝ))

/-- Addition of possibly-NaN values: NaN propagates, as in IEEE float
arithmetic used by numpy. -/
def oadd : Option ℝ → Option ℝ → Option ℝ
  | some a, some b => some (a + b)
  | _, _ => none

/-- Division of a possibly-NaN value by a (nonzero, in every use below)
float scalar: NaN propagates. -/
noncomputable def odiv (x : Option ℝ) (c : ℝ) : Option ℝ := x.map (fun a => a / c)

/-- The value np.nansum sees for one entry: a NaN entry counts as 0. -/
def nanVal : Option ℝ → ℝ
  | none => 0
  | some a => a

/-- np.nansum over one row. -/
def nansumRow (r : List (Option ℝ)) : ℝ := (r.map nanVal).sum

/-- np.nansum over a matrix: the sum of all non-NaN entries. -/
def nansumM (m : Mat) : ℝ := (m.map nansumRow).sum

/-- The plain (np.sum) sum of a row: NaN if any entry is NaN. -/
def optSum : List (Option ℝ) → Option ℝ
  | [] => some 0
  | x :: xs => oadd x (optSum xs)

/-- The plain (np.sum) sum of a matrix: NaN if any entry is NaN. -/
def plainSumM (m : Mat) : Option ℝ := optSum (m.map optSum)

/-- No entry of the matrix is NaN. -/
def noNaN (m : Mat) : Prop := ∀ r ∈ m, ∀ x ∈ r, x.isSome = true

/-- np.zeros of the given (rows, cols) shape. -/
def zerosM (r c : ℕ) : Mat := List.replicate r (List.replicate c (some (0 : ℝ)))

/-- Elementwise matrix addition (the shapes agree in every use below). -/
def addM (a b : Mat) : Mat := List.zipWith (List.zipWith oadd) a b

/-- Elementwise division of a matrix by a scalar. -/
noncomputable def divM (a : Mat) (c : ℝ) : Mat := a.map (List.map (fun x => odiv x c))

/-- np.arange(start, stop) with the default step 1: numpy produces
ceil(stop - start) elements start, start+1, ... (and none when the
difference is not positive). -/
noncomputable def np_arange (start stop : ℝ) : List ℝ :=
  (List.range (Int.toNat ⌈stop - start⌉)).map (fun i : ℕ => start + (i : ℝ))

/-- Source line `prf += prfn[i] / prfWeight[i]` iterated from
`prf = np.zeros(np.shape(prfn[0]))`: the inverse-distance-weighted
accumulation of the calibration grids. -/
noncomputable def accumPrf (grids : List Mat) (weights : List ℝ) (r c : ℕ) : Mat :=
  (List.zip grids weights).foldl (fun acc gw => addM acc (divM gw.1 gw.2)) (zerosM r c)

/-- Source line `prf /= (np.nansum(prf) * cdelt1p[0] * cdelt2p[0])`. -/
noncomputable def normalizePrf (m : Mat) (c1 c2 : ℝ) : Mat := divM m (nansumM m * c1 * c2)

/-- Source constant n_hdu = 5: the number of data extensions read. -/
def n_hdu : ℕ := 5

/-- Source constant min_prf_weight = 1e-6. -/
noncomputable def min_prf_weight : ℝ := 1e-6

/-- The reference column of the target footprint:
`ref_column = self.column + (coldim - 1.) / 2.`. -/
noncomputable def refColumnOf (column : ℝ) (coldim : ℕ) : ℝ :=
  column + ((coldim : ℝ) - 1) / 2

/-- The reference row of the target footprint:
`ref_row = self.row + (rowdim - 1.) / 2.`. -/
noncomputable def refRowOf (row : ℝ) (rowdim : ℕ) : ℝ :=
  row + ((rowdim : ℝ) - 1) / 2

/-- The per-sample weight of `_prepare_prf`:
`prfWeight[i] = math.sqrt((ref_column - crval1p[i])**2 + (ref_row - crval2p[i])**2)`
followed by `if prfWeight[i] < min_prf_weight: prfWeight[i] = min_prf_weight`. -/
noncomputable def prfWeight (ref_column ref_row crval1p crval2p : ℝ) : ℝ :=
  let w := Real.sqrt ((ref_column - crval1p) ^ 2 + (ref_row - crval2p) ^ 2)
  if w < min_prf_weight then min_prf_weight else w

/-- One FITS HDU of a PRF calibration file: its image data and its header,
an association list of keyword to numeric value. -/
structure HDU where
  data : Mat
  header : List (String × ℝ)

/-- One loaded calibration sample: the return value of
`_read_prf_calibration_file`. -/
structure CalSample where
  data : Mat
  crval1p : ℝ
  crval2p : ℝ
  cdelt1p : ℝ
  cdelt2p : ℝ

/-- The error taxonomy of model construction.  `calibrationNotFound` is the
failure when no file matches the channel-resolved glob pattern (the source
raises IndexError on `glob.glob(...)[0]`); `calibrationFormatError` is the
failure when a required extension or header keyword is missing (the source
raises IndexError or KeyError inside `_read_prf_calibration_file`);
`valueError` is the failure the scipy RectBivariateSpline constructor
raises on malformed axis/grid data. -/
inductive PrfError
  | calibrationNotFound
  | calibrationFormatError
  | valueError
deriving DecidableEq

/-- `_read_prf_calibration_file(path, ext)`: pick extension `ext` of the
opened file, read its data and the four required header fields.  A missing
extension or keyword aborts the load with a format error. -/
def _read_prf_calibration_file (file : List HDU) (ext : ℕ) :
    Except PrfError CalSample :=
  match file[ext]? with
  | none => Except.error PrfError.calibrationFormatError
  | some hdu =>
    match hdu.header.lookup "CRVAL1P", hdu.header.lookup "CRVAL2P",
          hdu.header.lookup "CDELT1P", hdu.header.lookup "CDELT2P" with
    | some a, some b, some c, some d =>
      Except.ok { data := hdu.data, crval1p := a, crval2p := b, cdelt1p := c, cdelt2p := d }
    | _, _, _, _ => Except.error PrfError.calibrationFormatError

/-- The loop `for i in range(n_hdu): ... = self._read_prf_calibration_file(prffile, i+1)`
over an explicit list of loop indices. -/
def readSamplesAux (file : List HDU) : List ℕ → Except PrfError (List CalSample)
  | [] => Except.ok []
  | i :: is =>
    match _read_prf_calibration_file file (i + 1) with
    | Except.error e => Except.error e
    | Except.ok s =>
      match readSamplesAux file is with
      | Except.error e => Except.error e
      | Except.ok rest => Except.ok (s :: rest)

/-- Read the n_hdu = 5 calibration samples from extensions 1..5. -/
def readSamples (file : List HDU) : Except PrfError (List CalSample) :=
  readSamplesAux file (List.range n_hdu)

/-- The grids prfn of the loaded samples. -/
def gridsOf (samples : List CalSample) : List Mat := samples.map (fun s => s.data)

/-- np.shape(prfn[0])[0]: the row count of the first calibration grid. -/
def grid0Rows (samples : List CalSample) : ℕ := ((gridsOf samples).headD []).length

/-- np.shape(prfn[0])[1]: the column count of the first calibration grid. -/
def grid0Cols (samples : List CalSample) : ℕ :=
  (((gridsOf samples).headD []).headD []).length

/-- cdelt1p[0], the column pixel scale of the first sample. -/
def cdelt1p0 (samples : List CalSample) : ℝ :=
  ((samples.map (fun s => s.cdelt1p)).headD 0)

/-- cdelt2p[0], the row pixel scale of the first sample. -/
def cdelt2p0 (samples : List CalSample) : ℝ :=
  ((samples.map (fun s => s.cdelt2p)).headD 0)

/-- `PRFcol = np.arange(0.5, np.shape(prfn[0])[1] + 0.5)` followed by
`PRFcol = (PRFcol - np.size(PRFcol) / 2) * cdelt1p[0]`. -/
noncomputable def prfColAxis (samples : List CalSample) : List ℝ :=
  let PRFcol := np_arange 0.5 ((grid0Cols samples : ℝ) + 0.5)
  PRFcol.map (fun x => (x - (PRFcol.length : ℝ) / 2) * cdelt1p0 samples)

/-- `PRFrow = np.arange(0.5, np.shape(prfn[0])[0] + 0.5)` followed by
`PRFrow = (PRFrow - np.size(PRFrow) / 2) * cdelt2p[0]`. -/
noncomputable def prfRowAxis (samples : List CalSample) : List ℝ :=
  let PRFrow := np_arange 0.5 ((grid0Rows samples : ℝ) + 0.5)
  PRFrow.map (fun x => (x - (PRFrow.length : ℝ) / 2) * cdelt2p0 samples)

/-- The weights of the fusion loop, one per sample. -/
noncomputable def weightsOf (column row : ℝ) (rowdim coldim : ℕ)
    (samples : List CalSample) : List ℝ :=
  samples.map (fun s =>
    prfWeight (refColumnOf column coldim) (refRowOf row rowdim) s.crval1p s.crval2p)

/-- The fused, normalized PRF grid built by `_prepare_prf` before the
spline fit. -/
noncomputable def fusedPrf (column row : ℝ) (rowdim coldim : ℕ)
    (samples : List CalSample) : Mat :=
  normalizePrf
    (accumPrf (gridsOf samples) (weightsOf column row rowdim coldim samples)
      (grid0Rows samples) (grid0Cols samples))
    (cdelt1p0 samples) (cdelt2p0 samples)

/-- The footprint pixel-center axis,
`np.arange(start + .5, start + dim + .5)` for start = column or row. -/
noncomputable def footprintAxis (start : ℝ) (dim : ℕ) : List ℝ :=
  np_arange (start + 0.5) (start + (dim : ℝ) + 0.5)

/-- The validity checks of the scipy RectBivariateSpline constructor on
`RectBivariateSpline(x, y, z)`: x and y strictly increasing, z of shape
(x.size, y.size), and each axis longer than the default spline degree 3.
When a check fails the constructor raises and no model is built. -/
def splineOk (x y : List ℝ) (z : Mat) : Prop :=
  List.Chain' (fun a b => a < b) x ∧ List.Chain' (fun a b => a < b) y ∧
  z.length = x.length ∧ (∀ r ∈ z, r.length = y.length) ∧
  3 < x.length ∧ 3 < y.length

/-- The state of a constructed KeplerPRF object.  `interpolate` is the
fitted spline, a continuous function of the two PRF-frame coordinates;
`prf_model` is the cache attribute written by `prf_to_detector` (absent,
`none`, until the first call). -/
structure KeplerPRF where
  channel : ℕ
  shape : ℕ × ℕ
  column : ℝ
  row : ℝ
  col_coord : List ℝ
  row_coord : List ℝ
  interpolate : ℝ → ℝ → ℝ
  prf_model : Option (List (List ℝ))

/-- `KeplerPRF.prf_to_detector`.  The rotated offsets rot_col and rot_row
are computed exactly as in the source (from the scalars delta_row[0] and
delta_col[0]) and then never used.  Indexing delta_row[0] or delta_col[0]
on an empty footprint axis raises IndexError, modelled by the `none`
result with the object state unchanged; otherwise the method stores the
interpolated grid, queried at (delta_row * stretch_row,
delta_col * stretch_col) and scaled by flux, in `self.prf_model` and
returns it. -/
noncomputable def KeplerPRF.prf_to_detector (m : KeplerPRF)
    (flux centroid_col centroid_row stretch_col stretch_row rotation_radians : ℝ) :
    KeplerPRF × Option (List (List ℝ)) :=
  let cos_rot := Real.cos rotation_radians
  let sin_rot := Real.sin rotation_radians
  let delta_col := m.col_coord.map (fun x => x - centroid_col)
  let delta_row := m.row_coord.map (fun x => x - centroid_row)
  match delta_row.head?, delta_col.head? with
  | some dr0, some dc0 =>
    let rot_col := delta_col.map (fun x => x * cos_rot - dr0 * sin_rot)
    let rot_row := delta_row.map (fun x => dc0 * sin_rot + x * cos_rot)
    let model := (delta_row.map (fun x => x * stretch_row)).map (fun r =>
      (delta_col.map (fun x => x * stretch_col)).map (fun c =>
        flux * m.interpolate r c))
    ({ m with prf_model := some model }, some model)
  | _, _ => (m, none)

/-- `KeplerPRF.evaluate` delegates to `prf_to_detector`. -/
noncomputable def KeplerPRF.evaluate (m : KeplerPRF)
    (flux centroid_col centroid_row stretch_col stretch_row rotation_radians : ℝ) :
    KeplerPRF × Option (List (List ℝ)) :=
  m.prf_to_detector flux centroid_col centroid_row stretch_col stretch_row rotation_radians

open Classical in
/-- The pure core of `_prepare_prf` once the calibration samples are
loaded: build the PRF-frame axes, fuse and normalize the grids, build the
footprint axes and fit the interpolating spline.  The spline fitting
algorithm itself is the external scipy collaborator, passed in as the
oracle `splineFit`; its argument validation `splineOk` is explicit. -/
noncomputable def buildModel (channel rowdim coldim : ℕ) (column row : ℝ)
    (splineFit : List ℝ → List ℝ → Mat → ℝ → ℝ → ℝ)
    (samples : List CalSample) : Except PrfError KeplerPRF :=
  if splineOk (prfColAxis samples) (prfRowAxis samples)
      (fusedPrf column row rowdim coldim samples) then
    Except.ok
      { channel := channel, shape := (rowdim, coldim), column := column, row := row,
        col_coord := footprintAxis column coldim,
        row_coord := footprintAxis row rowdim,
        interpolate := splineFit (prfColAxis samples) (prfRowAxis samples)
          (fusedPrf column row rowdim coldim samples),
        prf_model := none }
  else Except.error PrfError.valueError

/-- The glob pattern head built by `_prepare_prf`:
`('kplr0' if module < 10 else 'kplr') + str(module) + '.' + str(output)`.
The module/output pair is produced by `channel_to_module_output` in
pyke/utils.py, outside this file, so the resolved pair is an input here. -/
def patPre (module output : ℕ) : String :=
  (if module < 10 then "kplr0" else "kplr") ++ toString module ++ "." ++ toString output

/-- The fixed tail of the glob pattern. -/
def patSuf : String := "_prf.fits"

/-- Whether a file name matches the one-wildcard glob pattern `pre*suf`:
the name starts with `pre`, ends with `suf`, and the two parts do not
overlap (the `*` matches the possibly empty middle). -/
def globMatch (pre suf name : String) : Bool :=
  decide (pre.data.length + suf.data.length ≤ name.data.length) &&
    decide (name.data.take pre.data.length = pre.data) &&
    decide (name.data.drop (name.data.length - suf.data.length) = suf.data)

/-- `KeplerPRF._prepare_prf`: resolve the calibration file by globbing the
directory, read the five calibration samples and build the model.
`prf_files_dir` is the directory listing, an association of file names to
file contents.  An empty glob result is the IndexError of
`glob.glob(prf_file_path)[0]`, surfaced as `calibrationNotFound`. -/
noncomputable def _prepare_prf (channel module output rowdim coldim : ℕ)
    (column row : ℝ) (prf_files_dir : List (String × List HDU))
    (splineFit : List ℝ → List ℝ → Mat → ℝ → ℝ → ℝ) :
    Except PrfError KeplerPRF :=
  match prf_files_dir.filter (fun f => globMatch (patPre module output) patSuf f.1) with
  | [] => Except.error PrfError.calibrationNotFound
  | (_, prffile) :: _ =>
    match readSamples prffile with
    | Except.error e => Except.error e
    | Except.ok samples => buildModel channel rowdim coldim column row splineFit samples

/-- The dynamic errors of `KeplerPRFPhotometry.do_photometry`:
a NameError for an undefined name, an AttributeError for a missing
attribute, raised where the Python interpreter would raise them. -/
inductive PyError
  | nameError (name : String)
  | attributeError (obj attr : String)
deriving DecidableEq

/-- A target pixel file as `do_photometry` consumes it: a time series and
the per-cadence flux frames. -/
structure TargetPixelFile (Frame : Type) where
  time : List ℝ
  flux : List Frame

/-- The external collaborators `do_photometry` calls inside its loop,
taken as total oracles: the fit of the loss function built from one frame
(`self.loss_function(tpf.flux[t], self.prf_model)` followed by
`.fit(*initial_guesses).x`), its uncertainties, the model evaluation
`self.prf_model(*opt_result)`, and the numpy broadcast subtraction
`tpf.flux - model`. -/
structure PhotometryOracles (Frame : Type) where
  loss_fit : Frame → List ℝ → List ℝ
  loss_uncertainties : Frame → List ℝ → List ℝ
  prf_model_eval : List ℝ → Frame
  flux_sub : List Frame → Frame → List Frame

/-- The mutable state of a KeplerPRFPhotometry object: the three Python
lists appended to in the loop. -/
structure PhotometryState (Frame : Type) where
  opt_params : List (List ℝ)
  residuals : List (List Frame)
  uncertainties : List (List ℝ)

/-- One iteration of the `for t in range(len(tpf.time))` loop body of
`do_photometry`. -/
def doPhotometryStep {Frame : Type} [Inhabited Frame]
    (tpf : TargetPixelFile Frame) (o : PhotometryOracles Frame)
    (st : PhotometryState Frame × List ℝ) (t : ℕ) :
    PhotometryState Frame × List ℝ :=
  let frame := tpf.flux.getD t default
  let opt_result := o.loss_fit frame st.2
  let residuals_opt_result := o.flux_sub tpf.flux (o.prf_model_eval opt_result)
  ({ opt_params := st.1.opt_params ++ [opt_result],
     residuals := st.1.residuals ++ [residuals_opt_result],
     uncertainties := st.1.uncertainties ++ [o.loss_uncertainties frame opt_result] },
   opt_result)

/-- `KeplerPRFPhotometry.do_photometry`.  When `initial_guesses` is None
the source calls the undefined name `get_inital_guesses` (the import is
`get_initial_guesses`), so the interpreter raises NameError before the
loop.  Otherwise the loop runs (the external calls are the total oracles)
and the method ends with `self.opt_params.reshape(...)`; `self.opt_params`
is a built-in Python list, which has no attribute `reshape`, so the
interpreter raises AttributeError there.  No normal return exists. -/
def do_photometry {Frame : Type} [Inhabited Frame]
    (tpf : TargetPixelFile Frame) (initial_guesses : Option (List ℝ))
    (o : PhotometryOracles Frame) :
    Except PyError (PhotometryState Frame) :=
  match initial_guesses with
  | none => Except.error (PyError.nameError "get_inital_guesses")
  | some g0 =>
    let final := (List.range tpf.time.length).foldl (doPhotometryStep tpf o)
      ({ opt_params := [], residuals := [], uncertainties := [] }, g0)
    match final with
    | _ => Except.error (PyError.attributeError "list" "reshape")

/-- A rectangular matrix of the given (rows, cols) dimensions. -/
def matDims (m : Mat) (R C : ℕ) : Prop := m.length = R ∧ ∀ r ∈ m, r.length = C

/-- The grid `prf_to_detector` returns on a nonempty footprint. -/
noncomputable def prfMatrix (m : KeplerPRF) (flux cc cr sc sr : ℝ) : List (List ℝ) :=
  ((m.row_coord.map (fun x => x - cr)).map (fun x => x * sr)).map (fun r =>
    ((m.col_coord.map (fun x => x - cc)).map (fun x => x * sc)).map (fun c =>
      flux * m.interpolate r c))

/-- The constant-zero spline oracle, used for concrete instantiations. -/
def fit0 : List ℝ → List ℝ → Mat → ℝ → ℝ → ℝ := fun _ _ _ _ _ => 0

/-! ## A concrete calibration fixture -/

/-- A constant 4x4 calibration grid. -/
def sampleGrid : Mat := List.replicate 4 (List.replicate 4 (some 1))

/-- A calibration sample co-located with the origin, with unit pixel
scales. -/
def sampleCal : CalSample :=
  { data := sampleGrid, crval1p := 0, crval2p := 0, cdelt1p := 1, cdelt2p := 1 }

/-- Five identical square calibration samples. -/
def sampleSamples : List CalSample := List.replicate 5 sampleCal

/-- A non-square 4x5 calibration grid. -/
def sampleGridNS : Mat := List.replicate 4 (List.replicate 5 (some 1))

/-- A calibration sample with the non-square grid. -/
def sampleCalNS : CalSample :=
  { data := sampleGridNS, crval1p := 0, crval2p := 0, cdelt1p := 1, cdelt2p := 1 }

/-- Five identical non-square calibration samples. -/
def sampleSamplesNS : List CalSample := List.replicate 5 sampleCalNS

/-! ## Basic lemmas about the embedded numpy operations -/

lemma np_arange_add (a : ℝ) (n : ℕ) :
    np_arange a (a + n) = (List.range n).map (fun i : ℕ => a + (i : ℝ)) := by
  unfold np_arange
  have h : (a + (n : ℝ)) - a = (n : ℝ) := by ring
  rw [h, Int.ceil_natCast, Int.toNat_natCast]

lemma footprintAxis_eq (s : ℝ) (n : ℕ) :
    footprintAxis s n = (List.range n).map (fun i : ℕ => s + 0.5 + (i : ℝ)) := by
  unfold footprintAxis
  rw [show s + (n : ℝ) + 0.5 = (s + 0.5) + (n : ℝ) by ring, np_arange_add]

lemma footprintAxis_length (s : ℝ) (n : ℕ) : (footprintAxis s n).length = n := by
  rw [footprintAxis_eq, List.length_map, List.length_range]

lemma footprintAxis_getD (s : ℝ) (n i : ℕ) (h : i < n) :
    (footprintAxis s n).getD i 0 = s + 0.5 + i := by
  rw [footprintAxis_eq, List.getD_eq_getElem?_getD, List.getElem?_map,
    List.getElem?_range h]
  rfl

/-! ## Unfolding lemmas for prf_to_detector -/

lemma prf_to_detector_of_ne_nil (m : KeplerPRF) (flux cc cr sc sr th : ℝ)
    (hc : m.col_coord ≠ []) (hr : m.row_coord ≠ []) :
    m.prf_to_detector flux cc cr sc sr th =
      ({ m with prf_model := some (prfMatrix m flux cc cr sc sr) },
        some (prfMatrix m flux cc cr sc sr)) := by
  obtain ⟨a, as, ha⟩ := List.exists_cons_of_ne_nil hr
  obtain ⟨b, bs, hb⟩ := List.exists_cons_of_ne_nil hc
  unfold KeplerPRF.prf_to_detector prfMatrix
  rw [ha, hb]
  simp

lemma prf_to_detector_of_nil (m : KeplerPRF) (flux cc cr sc sr th : ℝ)
    (h : m.col_coord = [] ∨ m.row_coord = []) :
    m.prf_to_detector flux cc cr sc sr th = (m, none) := by
  unfold KeplerPRF.prf_to_detector
  rcases hc : m.col_coord with _ | ⟨b, bs⟩ <;>
    rcases hr : m.row_coord with _ | ⟨a, as⟩ <;>
      simp_all

/-- C2: for every flux, centroid, stretch and rotation argument,
`prf_to_detector` (and hence `evaluate`) returns exactly what the call with
rotation_radians = 0 returns: the rotated offsets rot_col and rot_row are
computed and discarded, so the rotation angle never influences the model. -/
theorem prf_rotation_independent (m : KeplerPRF) (flux cc cr sc sr th : ℝ) :
    m.prf_to_detector flux cc cr sc sr th = m.prf_to_detector flux cc cr sc sr 0 ∧
    m.evaluate flux cc cr sc sr th = m.evaluate flux cc cr sc sr 0 :=
  ⟨rfl, rfl⟩

/-- C3: `do_photometry` raises on every input and never returns normally:
with initial_guesses = None the undefined name `get_inital_guesses` raises
NameError before the frame loop, and with initial_guesses supplied the
final `self.opt_params.reshape(...)` raises AttributeError because
`self.opt_params` is a plain Python list. -/
theorem do_photometry_always_raises {Frame : Type} [Inhabited Frame]
    (tpf : TargetPixelFile Frame) (o : PhotometryOracles Frame) (g : List ℝ) :
    do_photometry tpf none o = Except.error (PyError.nameError "get_inital_guesses") ∧
    do_photometry tpf (some g) o =
      Except.error (PyError.attributeError "list" "reshape") ∧
    ∀ guesses st, do_photometry tpf guesses o ≠ Except.ok st := by
  refine ⟨rfl, rfl, ?_⟩
  intro guesses st h
  cases guesses <;> simp [do_photometry] at h

/-- C6: `evaluate` is homogeneous in flux: doubling the flux doubles every
entry of the returned model, exactly, with every other argument fixed. -/
theorem evaluate_flux_linear (m : KeplerPRF) (F cc cr sc sr th : ℝ) :
    (m.evaluate (2 * F) cc cr sc sr th).2 =
      ((m.evaluate F cc cr sc sr th).2).map
        (fun M => M.map (fun r => r.map (fun x => 2 * x))) := by
  by_cases hc : m.col_coord = [] ∨ m.row_coord = []
  · simp only [KeplerPRF.evaluate, prf_to_detector_of_nil _ _ _ _ _ _ _ hc]
    rfl
  · push_neg at hc
    simp only [KeplerPRF.evaluate,
      prf_to_detector_of_ne_nil _ _ _ _ _ _ _ hc.1 hc.2]
    simp [prfMatrix, List.map_map, Function.comp, mul_assoc]

/-- C8: `evaluate` is deterministic and side-effect-free on the logical
state of the model: the call leaves channel, shape, column, row,
col_coord, row_coord and interpolate unchanged, its only write is the
prf_model cache, which receives exactly the returned array (and is left
alone when the call raises); the returned array does not depend on the
cache contents, and a second call with equal arguments returns the same
array. -/
theorem evaluate_frame_and_determinism (m : KeplerPRF)
    (cache : Option (List (List ℝ))) (flux cc cr sc sr th : ℝ) :
    ((m.evaluate flux cc cr sc sr th).1.channel = m.channel ∧
      (m.evaluate flux cc cr sc sr th).1.shape = m.shape ∧
      (m.evaluate flux cc cr sc sr th).1.column = m.column ∧
      (m.evaluate flux cc cr sc sr th).1.row = m.row ∧
      (m.evaluate flux cc cr sc sr th).1.col_coord = m.col_coord ∧
      (m.evaluate flux cc cr sc sr th).1.row_coord = m.row_coord ∧
      (m.evaluate flux cc cr sc sr th).1.interpolate = m.interpolate) ∧
    (m.evaluate flux cc cr sc sr th).1.prf_model =
      ((m.evaluate flux cc cr sc sr th).2).or m.prf_model ∧
    ({ m with prf_model := cache }.evaluate flux cc cr sc sr th).2 =
      (m.evaluate flux cc cr sc sr th).2 ∧
    ((m.evaluate flux cc cr sc sr th).1.evaluate flux cc cr sc sr th).2 =
      (m.evaluate flux cc cr sc sr th).2 := by
  by_cases hc : m.col_coord = [] ∨ m.row_coord = []
  · have h1 := prf_to_detector_of_nil m flux cc cr sc sr th hc
    have h2 := prf_to_detector_of_nil { m with prf_model := cache }
      flux cc cr sc sr th (by simpa using hc)
    simp only [KeplerPRF.evaluate, h1, h2]
    simp
  · push_neg at hc
    have h1 := prf_to_detector_of_ne_nil m flux cc cr sc sr th hc.1 hc.2
    have h2 := prf_to_detector_of_ne_nil { m with prf_model := cache }
      flux cc cr sc sr th (by simpa using hc.1) (by simpa using hc.2)
    have h3 := prf_to_detector_of_ne_nil
      { m with prf_model := some (prfMatrix m flux cc cr sc sr) }
      flux cc cr sc sr th (by simpa using hc.1) (by simpa using hc.2)
    simp only [KeplerPRF.evaluate, h1, h2, h3]
    simp [prfMatrix]

lemma prfWeight_eq (rc rr a b : ℝ) :
    prfWeight rc rr a b =
      if Real.sqrt ((rc - a) ^ 2 + (rr - b) ^ 2) < min_prf_weight then min_prf_weight
      else Real.sqrt ((rc - a) ^ 2 + (rr - b) ^ 2) := rfl

/-- C7: during fusion the target reference point is the geometric center
of the footprint, ref_column = column + (coldim - 1)/2 and
ref_row = row + (rowdim - 1)/2; every sample weight is strictly positive
(so no division by zero can occur), and a sample whose reference
coordinate equals the reference point exactly contributes with the floor
weight, exactly min_prf_weight = 1e-6. -/
theorem prf_weight_floor (column row : ℝ) (rowdim coldim : ℕ) (c1 c2 : ℝ)
    (h1 : c1 = refColumnOf column coldim) (h2 : c2 = refRowOf row rowdim) :
    refColumnOf column coldim = column + ((coldim : ℝ) - 1) / 2 ∧
    refRowOf row rowdim = row + ((rowdim : ℝ) - 1) / 2 ∧
    (∀ a b : ℝ, 0 < prfWeight (refColumnOf column coldim) (refRowOf row rowdim) a b) ∧
    prfWeight (refColumnOf column coldim) (refRowOf row rowdim) c1 c2 = min_prf_weight ∧
    min_prf_weight = 1e-6 := by
  have hmin : (0 : ℝ) < min_prf_weight := by unfold min_prf_weight; norm_num
  refine ⟨rfl, rfl, ?_, ?_, rfl⟩
  · intro a b
    rw [prfWeight_eq]
    split
    · exact hmin
    · rename_i hge
      push_neg at hge
      exact lt_of_lt_of_le hmin hge
  · subst h1 h2
    rw [prfWeight_eq, sub_self, sub_self]
    rw [show (0 : ℝ) ^ 2 + 0 ^ 2 = 0 by norm_num, Real.sqrt_zero, if_pos hmin]

/-- C9: the footprint axes built at construction have lengths coldim and
rowdim, their entries are the pixel centers at half-integer offsets from
column and row, and they are strictly increasing with unit step, for every
real start coordinate. -/
theorem footprint_axes_spec (c : ℝ) (n : ℕ) :
    (footprintAxis c n).length = n ∧
    (∀ i : ℕ, i < n → (footprintAxis c n).getD i 0 = c + 0.5 + i) ∧
    (∀ i : ℕ, i + 1 < n →
      (footprintAxis c n).getD (i + 1) 0 = (footprintAxis c n).getD i 0 + 1 ∧
      (footprintAxis c n).getD i 0 < (footprintAxis c n).getD (i + 1) 0) := by
  refine ⟨footprintAxis_length c n, fun i hi => footprintAxis_getD c n i hi, ?_⟩
  intro i hi
  have hi0 : i < n := Nat.lt_of_succ_lt hi
  rw [footprintAxis_getD c n i hi0, footprintAxis_getD c n (i + 1) hi]
  constructor
  · push_cast
    ring
  · push_cast
    linarith

/-- C9 witness: the axes of a concrete footprint starting at the
non-integer column 0.25 with three pixels. -/
theorem footprint_axes_spec_witness :
    (footprintAxis 0.25 3).length = 3 ∧
    (footprintAxis 0.25 3).getD 1 0 = 0.25 + 0.5 + 1 ∧
    (footprintAxis 0.25 3).getD 2 0 = (footprintAxis 0.25 3).getD 1 0 + 1 ∧
    (footprintAxis 0.25 3).getD 1 0 < (footprintAxis 0.25 3).getD 2 0 := by
  refine ⟨(footprint_axes_spec 0.25 3).1, ?_, ?_, ?_⟩
  · have := (footprint_axes_spec 0.25 3).2.1 1 (by norm_num)
    simpa using this
  · exact ((footprint_axes_spec 0.25 3).2.2 1 (by norm_num)).1
  · exact ((footprint_axes_spec 0.25 3).2.2 1 (by norm_num)).2

/-- C7 witness: for the footprint at column 7, row 3 with shape (2, 4),
the reference point is (8.5, 3.5), a co-located sample gets weight exactly
1e-6, and every weight is positive. -/
theorem prf_weight_floor_witness :
    refColumnOf 7 4 = 7 + ((4 : ℝ) - 1) / 2 ∧
    refRowOf 3 2 = 3 + ((2 : ℝ) - 1) / 2 ∧
    (∀ a b : ℝ, 0 < prfWeight (refColumnOf 7 4) (refRowOf 3 2) a b) ∧
    prfWeight (refColumnOf 7 4) (refRowOf 3 2) (refColumnOf 7 4) (refRowOf 3 2) =
      min_prf_weight ∧
    min_prf_weight = 1e-6 :=
  prf_weight_floor 7 3 2 4 (refColumnOf 7 4) (refRowOf 3 2) rfl rfl

/-! ## Sums of possibly-NaN matrices -/

lemma optSum_eq_of_noNaN_row (r : List (Option ℝ)) (h : ∀ x ∈ r, x.isSome = true) :
    optSum r = some (nansumRow r) := by
  induction r with
  | nil => simp [optSum, nansumRow]
  | cons x xs ih =>
    obtain ⟨a, rfl⟩ := Option.isSome_iff_exists.mp (h x (List.mem_cons_self x xs))
    rw [optSum, ih (fun y hy => h y (List.mem_cons_of_mem _ hy))]
    simp [oadd, nansumRow, nanVal]

lemma plainSumM_eq_of_noNaN (m : Mat) (h : noNaN m) :
    plainSumM m = some (nansumM m) := by
  induction m with
  | nil => simp [plainSumM, optSum, nansumM]
  | cons r rs ih =>
    have hr := optSum_eq_of_noNaN_row r (h r (List.mem_cons_self r rs))
    have hrs := ih (fun q hq => h q (List.mem_cons_of_mem _ hq))
    rw [plainSumM] at hrs ⊢
    simp only [List.map_cons, optSum, hr, hrs, oadd, nansumM, List.map_cons,
      List.sum_cons]

lemma nanVal_odiv (x : Option ℝ) (d : ℝ) : nanVal (odiv x d) = nanVal x / d := by
  cases x <;> simp [odiv, nanVal, zero_div]

lemma nansumRow_div (r : List (Option ℝ)) (d : ℝ) :
    nansumRow (r.map (fun x => odiv x d)) = nansumRow r / d := by
  induction r with
  | nil => simp [nansumRow, zero_div]
  | cons x xs ih =>
    simp only [nansumRow, List.map_cons, List.sum_cons] at ih ⊢
    rw [nanVal_odiv, ih, add_div]

lemma nansumM_divM (m : Mat) (d : ℝ) : nansumM (divM m d) = nansumM m / d := by
  induction m with
  | nil => simp [nansumM, divM, zero_div]
  | cons r rs ih =>
    simp only [nansumM, divM, List.map_cons, List.sum_cons] at ih ⊢
    rw [nansumRow_div, ih, add_div]

lemma noNaN_divM (m : Mat) (d : ℝ) (h : noNaN m) : noNaN (divM m d) := by
  intro r hr x hx
  rw [divM] at hr
  obtain ⟨r0, hr0, rfl⟩ := List.mem_map.mp hr
  obtain ⟨x0, hx0, rfl⟩ := List.mem_map.mp hx
  have := h r0 hr0 x0 hx0
  obtain ⟨a, rfl⟩ := Option.isSome_iff_exists.mp this
  simp [odiv]

/-- C1 (amended): after fusion the normalized grid integrates to 1
exactly: whenever the normalizer nansum * cdelt1p[0] * cdelt2p[0] is
nonzero, the NaN-excluding (nansum) sum of the fused grid times the two
pixel scales is 1 — NaN entries of the accumulated grid included — and
the plain sum over all elements satisfies the same identity provided the
accumulated grid holds no NaN entry. -/
theorem fused_grid_normalization_integral
    (grids : List Mat) (weights : List ℝ) (gR gC : ℕ) (c1 c2 : ℝ)
    (hden : nansumM (accumPrf grids weights gR gC) * c1 * c2 ≠ 0) :
    nansumM (normalizePrf (accumPrf grids weights gR gC) c1 c2) * c1 * c2 = 1 ∧
    (noNaN (accumPrf grids weights gR gC) →
      ∃ s : ℝ, plainSumM (normalizePrf (accumPrf grids weights gR gC) c1 c2) = some s ∧
        s * c1 * c2 = 1) := by
  set A := accumPrf grids weights gR gC with hA
  have hA0 : nansumM A ≠ 0 := fun h => hden (by rw [h, zero_mul, zero_mul])
  have hc1 : c1 ≠ 0 := fun h => hden (by rw [h, mul_zero, zero_mul])
  have hc2 : c2 ≠ 0 := fun h => hden (by rw [h, mul_zero])
  have h1 : nansumM (normalizePrf A c1 c2) = nansumM A / (nansumM A * c1 * c2) := by
    rw [normalizePrf, nansumM_divM]
  have hval : nansumM (normalizePrf A c1 c2) * c1 * c2 = 1 := by
    rw [h1]
    field_simp
  refine ⟨hval, fun hnan => ⟨nansumM (normalizePrf A c1 c2), ?_, hval⟩⟩
  exact plainSumM_eq_of_noNaN _ (noNaN_divM _ _ hnan)

/-- C1 counterexample: a calibration grid with one NaN entry, fused for
the footprint at (0, 0) with shape (1, 1) against a co-located sample
(weight = the 1e-6 floor) and unit pixel scales.  The NaN survives
normalization, so the plain (np.sum) integral of the fused grid is NaN,
not 1: the claimed identity fails for the plain sum over all elements. -/
theorem fused_grid_plain_sum_nan_counterexample :
    ¬ ∃ s : ℝ,
      plainSumM (normalizePrf (accumPrf [[[some 1, none], [some 1, some 1]]]
          [prfWeight (refColumnOf 0 1) (refRowOf 0 1) 0 0] 2 2) 1 1) = some s ∧
      s * 1 * 1 = 1 := by
  rintro ⟨s, hs, -⟩
  rw [show accumPrf [[[some 1, none], [some 1, some 1]]]
        [prfWeight (refColumnOf 0 1) (refRowOf 0 1) 0 0] 2 2 =
      [[oadd (some 0) (odiv (some 1) (prfWeight (refColumnOf 0 1) (refRowOf 0 1) 0 0)),
        oadd (some 0) none],
       [oadd (some 0) (odiv (some 1) (prfWeight (refColumnOf 0 1) (refRowOf 0 1) 0 0)),
        oadd (some 0) (odiv (some 1) (prfWeight (refColumnOf 0 1) (refRowOf 0 1) 0 0))]]
      from rfl] at hs
  simp [normalizePrf, divM, odiv, oadd, plainSumM, optSum] at hs

/-- C1 witness: a concrete NaN-free fusion (one constant 1x1 grid, weight
1, unit pixel scales) where the normalized plain sum times the pixel
scales is exactly 1. -/
theorem fused_grid_normalization_integral_witness :
    (nansumM (normalizePrf (accumPrf [[[some 2]]] [1] 1 1) 1 1) * 1 * 1 = 1 ∧
      ∃ s : ℝ, plainSumM (normalizePrf (accumPrf [[[some 2]]] [1] 1 1) 1 1) = some s ∧
        s * 1 * 1 = 1) ∧
    nansumM (normalizePrf (accumPrf [[[some 1, none], [some 1, some 1]]]
        [prfWeight (refColumnOf 0 1) (refRowOf 0 1) 0 0] 2 2) 1 1) * 1 * 1 = 1 := by
  constructor
  · obtain ⟨h1, h2⟩ := fused_grid_normalization_integral [[[some 2]]] [1] 1 1 1 1
      (by
        rw [show accumPrf [[[some 2]]] [1] 1 1 =
            [[oadd (some 0) (odiv (some 2) 1)]] from rfl]
        simp [nansumM, nansumRow, nanVal, oadd, odiv])
    refine ⟨h1, h2 ?_⟩
    rw [show accumPrf [[[some 2]]] [1] 1 1 =
        [[oadd (some 0) (odiv (some 2) 1)]] from rfl]
    intro r hr x hx
    simp only [List.mem_singleton] at hr
    subst hr
    simp only [List.mem_singleton] at hx
    subst hx
    simp [oadd, odiv]
  · have harg : (refColumnOf 0 1 - 0) ^ 2 + (refRowOf 0 1 - 0) ^ 2 = 0 := by
      norm_num [refColumnOf, refRowOf]
    have hw : prfWeight (refColumnOf 0 1) (refRowOf 0 1) 0 0 = (1e-6 : ℝ) := by
      rw [prfWeight_eq, harg, Real.sqrt_zero,
        if_pos (by norm_num [min_prf_weight]), min_prf_weight]
    exact (fused_grid_normalization_integral
      [[[some 1, none], [some 1, some 1]]]
      [prfWeight (refColumnOf 0 1) (refRowOf 0 1) 0 0] 2 2 1 1
      (by
        rw [show accumPrf [[[some 1, none], [some 1, some 1]]]
              [prfWeight (refColumnOf 0 1) (refRowOf 0 1) 0 0] 2 2 =
            [[oadd (some 0)
                (odiv (some 1) (prfWeight (refColumnOf 0 1) (refRowOf 0 1) 0 0)),
              oadd (some 0) none],
             [oadd (some 0)
                (odiv (some 1) (prfWeight (refColumnOf 0 1) (refRowOf 0 1) 0 0)),
              oadd (some 0)
                (odiv (some 1) (prfWeight (refColumnOf 0 1) (refRowOf 0 1) 0 0))]]
            from rfl, hw]
        simp [nansumM, nansumRow, nanVal, oadd, odiv]
        norm_num)).1

/-! ## Error behaviour of the calibration loader -/

lemma read_cal_error (file : List HDU) (ext : ℕ) (e : PrfError)
    (h : _read_prf_calibration_file file ext = Except.error e) :
    e = PrfError.calibrationFormatError := by
  unfold _read_prf_calibration_file at h
  split at h
  · exact (Except.error.inj h).symm
  · split at h
    all_goals first
      | exact (Except.error.inj h).symm
      | exact absurd h (by simp)

lemma readSamplesAux_error (file : List HDU) (l : List ℕ) :
    ∀ e : PrfError, readSamplesAux file l = Except.error e →
      e = PrfError.calibrationFormatError := by
  induction l with
  | nil => intro e h; exact absurd h (by simp [readSamplesAux])
  | cons i is ih =>
    intro e h
    rw [readSamplesAux] at h
    split at h
    · rename_i e2 heq
      rw [← Except.error.inj h]
      exact read_cal_error file (i + 1) e2 heq
    · split at h
      · rename_i e3 heq3
        rw [← Except.error.inj h]
        exact ih e3 heq3
      · exact absurd h (by simp)

lemma readSamplesAux_error_of_bad (file : List HDU) (l : List ℕ)
    (h : ∃ i ∈ l, ∀ s, _read_prf_calibration_file file (i + 1) ≠ Except.ok s) :
    ∃ e, readSamplesAux file l = Except.error e := by
  induction l with
  | nil => simp at h
  | cons i is ih =>
    rw [readSamplesAux]
    obtain ⟨j, hj, hbad⟩ := h
    rcases List.mem_cons.mp hj with rfl | hjs
    · cases hr : _read_prf_calibration_file file (j + 1) with
      | error e => exact ⟨e, rfl⟩
      | ok s => exact absurd hr (hbad s)
    · cases hr : _read_prf_calibration_file file (i + 1) with
      | error e => exact ⟨e, rfl⟩
      | ok s =>
        obtain ⟨e, he⟩ := ih ⟨j, hjs, hbad⟩
        exact ⟨e, by rw [he]⟩

/-- C4: model construction fails with `calibrationNotFound` when no file
of the directory matches the channel-resolved glob pattern, and with
`calibrationFormatError` when the matched file has fewer than the
required 6 HDUs (five data extensions past the primary HDU) or some
required header field of an extension is missing; in every error case no
model value is produced. -/
theorem prepare_prf_error_conditions
    (channel module output rowdim coldim : ℕ) (column row : ℝ)
    (dir : List (String × List HDU))
    (fit : List ℝ → List ℝ → Mat → ℝ → ℝ → ℝ) :
    (dir.filter (fun f => globMatch (patPre module output) patSuf f.1) = [] →
      _prepare_prf channel module output rowdim coldim column row dir fit =
        Except.error PrfError.calibrationNotFound) ∧
    (∀ nm file rest,
      dir.filter (fun f => globMatch (patPre module output) patSuf f.1) =
        (nm, file) :: rest →
      (file.length < 6 ∨
        ∃ i < n_hdu, ∀ s, _read_prf_calibration_file file (i + 1) ≠ Except.ok s) →
      _prepare_prf channel module output rowdim coldim column row dir fit =
        Except.error PrfError.calibrationFormatError) ∧
    ∀ e m, _prepare_prf channel module output rowdim coldim column row dir fit =
        Except.error e →
      _prepare_prf channel module output rowdim coldim column row dir fit ≠
        Except.ok m := by
  refine ⟨?_, ?_, ?_⟩
  · intro hfilter
    unfold _prepare_prf
    rw [hfilter]
  · intro nm file rest hfilter hbad
    have hbad5 : ∃ i ∈ List.range n_hdu,
        ∀ s, _read_prf_calibration_file file (i + 1) ≠ Except.ok s := by
      rcases hbad with hlen | ⟨i, hi, hne⟩
      · refine ⟨4, by simp [n_hdu], ?_⟩
        intro s hs
        unfold _read_prf_calibration_file at hs
        rw [List.getElem?_eq_none (by omega)] at hs
        simp at hs
      · exact ⟨i, List.mem_range.mpr hi, hne⟩
    obtain ⟨e, he⟩ := readSamplesAux_error_of_bad file (List.range n_hdu) hbad5
    have hfmt := readSamplesAux_error file (List.range n_hdu) e he
    have hstep : _prepare_prf channel module output rowdim coldim column row dir fit =
        match readSamples file with
        | Except.error e => Except.error e
        | Except.ok samples => buildModel channel rowdim coldim column row fit samples := by
      unfold _prepare_prf
      rw [hfilter]
    rw [hstep, show readSamples file = Except.error e from he, hfmt]
  · intro e m herr hok
    rw [herr] at hok
    exact absurd hok (by simp)

/-- C4 witness: an empty directory gives `calibrationNotFound`; a
directory whose single matching file has no extensions at all gives
`calibrationFormatError`. -/
theorem prepare_prf_error_conditions_witness :
    _prepare_prf 1 2 1 3 3 0 0 [] fit0 =
      Except.error PrfError.calibrationNotFound ∧
    _prepare_prf 1 2 1 3 3 0 0 [("kplr02.1_prf.fits", [])] fit0 =
      Except.error PrfError.calibrationFormatError :=
  ⟨(prepare_prf_error_conditions 1 2 1 3 3 0 0 [] fit0).1 rfl,
   (prepare_prf_error_conditions 1 2 1 3 3 0 0 [("kplr02.1_prf.fits", [])] fit0).2.1
     "kplr02.1_prf.fits" [] []
     (by
       rw [List.filter_cons]
       norm_num [List.filter_nil]
       decide)
     (Or.inl (by norm_num))⟩

/-! ## Shapes of the fused grid and inversion of buildModel -/

lemma zerosM_dims (R C : ℕ) : matDims (zerosM R C) R C := by
  constructor
  · simp [zerosM]
  · intro r hr
    rw [List.eq_of_mem_replicate hr]
    simp

lemma divM_dims {m : Mat} {R C : ℕ} (d : ℝ) (h : matDims m R C) :
    matDims (divM m d) R C := by
  obtain ⟨h1, h2⟩ := h
  constructor
  · simpa [divM] using h1
  · intro r hr
    obtain ⟨r0, hr0, rfl⟩ := List.mem_map.mp hr
    simpa using h2 r0 hr0

lemma addM_dims {a b : Mat} {R C : ℕ} (ha : matDims a R C) (hb : matDims b R C) :
    matDims (addM a b) R C := by
  obtain ⟨ha1, ha2⟩ := ha
  obtain ⟨hb1, hb2⟩ := hb
  constructor
  · simp only [addM, List.length_zipWith]
    rw [ha1, hb1, min_self]
  · intro r hr
    simp only [addM] at hr
    obtain ⟨i, hi, rfl⟩ := List.mem_iff_getElem.mp hr
    rw [List.length_zipWith] at hi
    have hia : i < a.length := lt_of_lt_of_le hi (min_le_left _ _)
    have hib : i < b.length := lt_of_lt_of_le hi (min_le_right _ _)
    rw [List.getElem_zipWith, List.length_zipWith,
      ha2 a[i] (List.getElem_mem hia), hb2 b[i] (List.getElem_mem hib), min_self]

lemma accum_fold_dims (R C : ℕ) : ∀ (l : List (Mat × ℝ)) (acc : Mat),
    (∀ p ∈ l, matDims p.1 R C) → matDims acc R C →
    matDims (l.foldl (fun acc gw => addM acc (divM gw.1 gw.2)) acc) R C := by
  intro l
  induction l with
  | nil => intro acc _ hacc; exact hacc
  | cons p ps ih =>
    intro acc hl hacc
    rw [List.foldl_cons]
    exact ih _ (fun q hq => hl q (List.mem_cons_of_mem _ hq))
      (addM_dims hacc (divM_dims _ (hl p (List.mem_cons_self p ps))))

lemma accumPrf_dims (grids : List Mat) (weights : List ℝ) (R C : ℕ)
    (h : ∀ g ∈ grids, matDims g R C) : matDims (accumPrf grids weights R C) R C := by
  unfold accumPrf
  exact accum_fold_dims R C _ _
    (fun p hp => h p.1 (List.of_mem_zip hp).1) (zerosM_dims R C)

lemma fusedPrf_dims (column row : ℝ) (rowdim coldim : ℕ) (samples : List CalSample)
    (h : ∀ g ∈ gridsOf samples, matDims g (grid0Rows samples) (grid0Cols samples)) :
    matDims (fusedPrf column row rowdim coldim samples)
      (grid0Rows samples) (grid0Cols samples) := by
  unfold fusedPrf normalizePrf
  exact divM_dims _ (accumPrf_dims _ _ _ _ h)

lemma np_arange_length (a : ℝ) (n : ℕ) : (np_arange a (a + n)).length = n := by
  rw [np_arange_add, List.length_map, List.length_range]

lemma prfColAxis_length (samples : List CalSample) :
    (prfColAxis samples).length = grid0Cols samples := by
  simp only [prfColAxis, List.length_map]
  rw [show ((grid0Cols samples : ℝ) + 0.5) = 0.5 + (grid0Cols samples : ℝ) by ring]
  exact np_arange_length 0.5 _

lemma prfRowAxis_length (samples : List CalSample) :
    (prfRowAxis samples).length = grid0Rows samples := by
  simp only [prfRowAxis, List.length_map]
  rw [show ((grid0Rows samples : ℝ) + 0.5) = 0.5 + (grid0Rows samples : ℝ) by ring]
  exact np_arange_length 0.5 _

lemma buildModel_ok_iff (channel rowdim coldim : ℕ) (column row : ℝ)
    (fit : List ℝ → List ℝ → Mat → ℝ → ℝ → ℝ) (samples : List CalSample)
    (m : KeplerPRF) :
    buildModel channel rowdim coldim column row fit samples = Except.ok m ↔
      splineOk (prfColAxis samples) (prfRowAxis samples)
        (fusedPrf column row rowdim coldim samples) ∧
      m = { channel := channel, shape := (rowdim, coldim), column := column,
            row := row, col_coord := footprintAxis column coldim,
            row_coord := footprintAxis row rowdim,
            interpolate := fit (prfColAxis samples) (prfRowAxis samples)
              (fusedPrf column row rowdim coldim samples),
            prf_model := none } := by
  unfold buildModel
  split
  · rename_i hc
    simp only [Except.ok.injEq, hc, true_and]
    exact ⟨fun h => h.symm, fun h => h.symm⟩
  · rename_i hc
    simp only [hc, false_and, iff_false]
    intro h
    exact absurd h (by simp)

/-- C5: for a model built by construction with a nonempty footprint, every
evaluate call (any finite flux, centroid, stretch, rotation) returns a 2D
array whose shape equals the shape attribute (rowdim, coldim) supplied at
construction. -/
theorem evaluate_shape_matches_model
    (channel rowdim coldim : ℕ) (column row : ℝ)
    (fit : List ℝ → List ℝ → Mat → ℝ → ℝ → ℝ) (samples : List CalSample)
    (m : KeplerPRF)
    (hok : buildModel channel rowdim coldim column row fit samples = Except.ok m)
    (hR : 0 < rowdim) (hC : 0 < coldim)
    (flux cc cr sc sr th : ℝ) :
    m.shape = (rowdim, coldim) ∧
    ∃ M, (m.evaluate flux cc cr sc sr th).2 = some M ∧
      M.length = m.shape.1 ∧ ∀ r ∈ M, r.length = m.shape.2 := by
  obtain ⟨-, rfl⟩ :=
    (buildModel_ok_iff channel rowdim coldim column row fit samples m).mp hok
  refine ⟨rfl, ?_⟩
  have hcol : footprintAxis column coldim ≠ [] := by
    intro h
    have := footprintAxis_length column coldim
    rw [h] at this
    simp at this
    omega
  have hrow : footprintAxis row rowdim ≠ [] := by
    intro h
    have := footprintAxis_length row rowdim
    rw [h] at this
    simp at this
    omega
  rw [KeplerPRF.evaluate,
    prf_to_detector_of_ne_nil _ flux cc cr sc sr th hcol hrow]
  refine ⟨_, rfl, ?_, ?_⟩
  · simp [prfMatrix, footprintAxis_length]
  · intro r hr
    simp only [prfMatrix, List.mem_map] at hr
    obtain ⟨x, -, rfl⟩ := hr
    simp [footprintAxis_length]

/-- C10: with rectangular calibration grids, model construction succeeds
only when the first calibration grid is square (its row count equals its
column count), because the spline constructor demands
z.shape = (x.size, y.size) with x = the cdelt1p-scaled column axis; in the
non-square case construction fails with the constructor error and no
model.  On success the stored interpolant is the spline oracle applied to
(column axis, row axis, fused grid), and evaluate queries it with the
stretched row offsets as first arguments and the stretched column offsets
as second arguments. -/
theorem spline_requires_square_grid
    (channel rowdim coldim : ℕ) (column row : ℝ)
    (fit : List ℝ → List ℝ → Mat → ℝ → ℝ → ℝ) (samples : List CalSample)
    (hrect : ∀ g ∈ gridsOf samples,
      matDims g (grid0Rows samples) (grid0Cols samples)) :
    (∀ m, buildModel channel rowdim coldim column row fit samples = Except.ok m →
      grid0Rows samples = grid0Cols samples ∧
      m.interpolate = fit (prfColAxis samples) (prfRowAxis samples)
        (fusedPrf column row rowdim coldim samples) ∧
      (0 < rowdim → 0 < coldim → ∀ flux cc cr sc sr th : ℝ,
        (m.evaluate flux cc cr sc sr th).2 = some
          ((((footprintAxis row rowdim).map (fun x => x - cr)).map
              (fun x => x * sr)).map (fun r =>
            (((footprintAxis column coldim).map (fun x => x - cc)).map
                (fun x => x * sc)).map (fun c =>
              flux * fit (prfColAxis samples) (prfRowAxis samples)
                (fusedPrf column row rowdim coldim samples) r c))))) ∧
    (grid0Rows samples ≠ grid0Cols samples →
      buildModel channel rowdim coldim column row fit samples =
        Except.error PrfError.valueError) := by
  have hz := fusedPrf_dims column row rowdim coldim samples hrect
  constructor
  · intro m hok
    obtain ⟨hsp, rfl⟩ :=
      (buildModel_ok_iff channel rowdim coldim column row fit samples m).mp hok
    have hsq : grid0Rows samples = grid0Cols samples := by
      have := hsp.2.2.1
      rw [hz.1, prfColAxis_length] at this
      exact this
    refine ⟨hsq, rfl, ?_⟩
    intro hR hC flux cc cr sc sr th
    have hcol : footprintAxis column coldim ≠ [] := by
      intro h
      have := footprintAxis_length column coldim
      rw [h] at this
      simp at this
      omega
    have hrow : footprintAxis row rowdim ≠ [] := by
      intro h
      have := footprintAxis_length row rowdim
      rw [h] at this
      simp at this
      omega
    rw [KeplerPRF.evaluate,
      prf_to_detector_of_ne_nil _ flux cc cr sc sr th hcol hrow]
    rfl
  · intro hne
    unfold buildModel
    split
    · rename_i hsp
      exfalso
      apply hne
      have := hsp.2.2.1
      rw [hz.1, prfColAxis_length] at this
      exact this
    · rfl

lemma prfColAxis_eq (samples : List CalSample) :
    prfColAxis samples = (List.range (grid0Cols samples)).map
      (fun i : ℕ => (0.5 + (i : ℝ) - (grid0Cols samples : ℝ) / 2) *
        cdelt1p0 samples) := by
  simp only [prfColAxis]
  rw [show ((grid0Cols samples : ℝ) + 0.5) = 0.5 + (grid0Cols samples : ℝ) by ring]
  rw [np_arange_length, np_arange_add, List.map_map]
  rfl

lemma prfRowAxis_eq (samples : List CalSample) :
    prfRowAxis samples = (List.range (grid0Rows samples)).map
      (fun i : ℕ => (0.5 + (i : ℝ) - (grid0Rows samples : ℝ) / 2) *
        cdelt2p0 samples) := by
  simp only [prfRowAxis]
  rw [show ((grid0Rows samples : ℝ) + 0.5) = 0.5 + (grid0Rows samples : ℝ) by ring]
  rw [np_arange_length, np_arange_add, List.map_map]
  rfl

lemma sample_rect : ∀ g ∈ gridsOf sampleSamples,
    matDims g (grid0Rows sampleSamples) (grid0Cols sampleSamples) := by
  intro g hg
  rw [show grid0Rows sampleSamples = 4 from rfl,
    show grid0Cols sampleSamples = 4 from rfl]
  simp only [gridsOf, sampleSamples, sampleCal, List.map_replicate] at hg
  rw [List.eq_of_mem_replicate hg]
  constructor
  · simp [sampleGrid]
  · intro r hr
    simp only [sampleGrid] at hr
    rw [List.eq_of_mem_replicate hr]
    simp

lemma sample_rect_ns : ∀ g ∈ gridsOf sampleSamplesNS,
    matDims g (grid0Rows sampleSamplesNS) (grid0Cols sampleSamplesNS) := by
  intro g hg
  rw [show grid0Rows sampleSamplesNS = 4 from rfl,
    show grid0Cols sampleSamplesNS = 5 from rfl]
  simp only [gridsOf, sampleSamplesNS, sampleCalNS, List.map_replicate] at hg
  rw [List.eq_of_mem_replicate hg]
  constructor
  · simp [sampleGridNS]
  · intro r hr
    simp only [sampleGridNS] at hr
    rw [List.eq_of_mem_replicate hr]
    simp

lemma sample_spline_ok :
    splineOk (prfColAxis sampleSamples) (prfRowAxis sampleSamples)
      (fusedPrf 0 0 1 1 sampleSamples) := by
  have hz := fusedPrf_dims 0 0 1 1 sampleSamples sample_rect
  have h4r : grid0Rows sampleSamples = 4 := rfl
  have h4c : grid0Cols sampleSamples = 4 := rfl
  have hc1 : cdelt1p0 sampleSamples = 1 := rfl
  have hc2 : cdelt2p0 sampleSamples = 1 := rfl
  refine ⟨?_, ?_, ?_, ?_, ?_, ?_⟩
  · rw [prfColAxis_eq, h4c, hc1]
    norm_num [List.range_succ, List.chain'_cons]
  · rw [prfRowAxis_eq, h4r, hc2]
    norm_num [List.range_succ, List.chain'_cons]
  · rw [hz.1, prfColAxis_length, h4r, h4c]
  · intro r hr
    rw [hz.2 r hr, prfRowAxis_length, h4r, h4c]
  · rw [prfColAxis_length, h4c]
    norm_num
  · rw [prfRowAxis_length, h4r]
    norm_num

lemma sample_build_ok :
    ∃ m : KeplerPRF, buildModel 7 1 1 0 0 fit0 sampleSamples = Except.ok m :=
  ⟨_, (buildModel_ok_iff 7 1 1 0 0 fit0 sampleSamples _).mpr
    ⟨sample_spline_ok, rfl⟩⟩

/-- C5 witness: a concrete successful construction (channel 7, footprint
shape (1, 1) at the origin, the square calibration fixture) on which
evaluate returns a 1x1 array. -/
theorem evaluate_shape_matches_model_witness :
    ∃ m M, buildModel 7 1 1 0 0 fit0 sampleSamples = Except.ok m ∧
      m.shape = (1, 1) ∧
      (m.evaluate 2 0.3 0.7 1 1 0).2 = some M ∧
      M.length = 1 ∧ ∀ r ∈ M, r.length = 1 := by
  obtain ⟨m, hm⟩ := sample_build_ok
  obtain ⟨hshape, M, hM, hlen, hrows⟩ :=
    evaluate_shape_matches_model 7 1 1 0 0 fit0 sampleSamples m hm
      (by norm_num) (by norm_num) 2 0.3 0.7 1 1 0
  refine ⟨m, M, hm, hshape, hM, ?_, ?_⟩
  · rw [hlen, hshape]
  · intro r hr
    have := hrows r hr
    rw [hshape] at this
    exact this

/-- C10 witness: on the square fixture construction succeeds and stores
the spline oracle applied to (column axis, row axis, fused grid);
on the 4x5 non-square fixture construction fails with the constructor
error. -/
theorem spline_requires_square_grid_witness :
    (∃ m, buildModel 7 1 1 0 0 fit0 sampleSamples = Except.ok m ∧
      grid0Rows sampleSamples = grid0Cols sampleSamples ∧
      m.interpolate = fit0 (prfColAxis sampleSamples) (prfRowAxis sampleSamples)
        (fusedPrf 0 0 1 1 sampleSamples)) ∧
    buildModel 7 1 1 0 0 fit0 sampleSamplesNS =
      Except.error PrfError.valueError := by
  constructor
  · obtain ⟨m, hm⟩ := sample_build_ok
    obtain ⟨hsq, hint, -⟩ :=
      (spline_requires_square_grid 7 1 1 0 0 fit0 sampleSamples sample_rect).1 m hm
    exact ⟨m, hm, hsq, hint⟩
  · exact (spline_requires_square_grid 7 1 1 0 0 fit0 sampleSamplesNS
      sample_rect_ns).2 (by decide)
